import Mathlib

/-
Verification of the audio-capture session manager
(screencapturekit-audio-capture).

The repository ships a C++ header (src/screencapturekit_wrapper.h) declaring
the data model (AudioSample, AppInfo, WindowInfo, DisplayInfo, Rect,
CaptureConfig) and the public controller class ScreenCaptureKitWrapper.  The
concrete implementation sits behind an opaque pointer and is not part of the
sources, so the behaviour of configuration validation, the bounded audio
sample queue, and the capture-session state machine is modelled here from the
specification (sections 4.1, 4.3, 4.4, 4.5 of the design document); each such
definition carries a doc comment starting with "Modelled from the spec:".
Struct layouts and defaults are taken directly from the header.
Floating-point fields (float data, double timestamps, double coordinates) are
embedded as rationals: every finite IEEE value is a rational and all
comparisons used here agree with the rational ones.
-/

/-- Audio configuration, from the header: sampleRate in Hz, channel count,
buffer size (0 = system default) and the cursor-exclusion flag. -/
structure CaptureConfig where
  sampleRate : Int
  channels : Int
  bufferSize : Int
  excludeCursor : Bool
deriving DecidableEq, Repr

/-- Default constructor from the header: 48000 Hz, stereo, system-chosen
buffer, cursor excluded. -/
def CaptureConfig.default : CaptureConfig :=
  { sampleRate := 48000, channels := 2, bufferSize := 0, excludeCursor := true }

/-- Configuration validation errors (spec section 4.1). -/
inductive ConfigError where
  | InvalidSampleRate
  | InvalidChannelCount
  | InvalidBufferSize
deriving DecidableEq, Repr

/-- Modelled from the spec: `validate(raw) -> Result<CaptureConfig, ConfigError>`
(section 4.1); the implementation behind the opaque pointer is not in the
sources.  Defaults for unset fields are supplied by the C++ default
constructor (`CaptureConfig.default`), so validation receives a fully
populated config and rejects sample rates outside the supported set
(8000 to 192000 Hz), channel counts other than 1 or 2, and negative buffer
sizes; otherwise it returns the config unchanged.  Pure function. -/
def validate (c : CaptureConfig) : Except ConfigError CaptureConfig :=
  if c.sampleRate < 8000 ∨ 192000 < c.sampleRate then
    .error .InvalidSampleRate
  else if ¬ (c.channels = 1 ∨ c.channels = 2) then
    .error .InvalidChannelCount
  else if c.bufferSize < 0 then
    .error .InvalidBufferSize
  else
    .ok c

/-- One delivered batch of interleaved audio samples, from the header.
The 32-bit float data and the double timestamp are embedded as rationals. -/
structure AudioSample where
  data : List ℚ
  sampleRate : Int
  channelCount : Int
  timestamp : ℚ
deriving DecidableEq, Repr

/-- Modelled from the spec: the bounded single-producer hand-off buffer of
section 4.3 (fixed-capacity ring buffer, drop-oldest-on-overflow, observable
drop counter, close-and-flush); the implementation is not in the sources.
`buffer` keeps queued samples oldest first. -/
structure AudioSampleQueue where
  capacity : Nat
  buffer : List AudioSample
  dropCount : Nat
  closed : Bool
deriving DecidableEq, Repr

/-- Modelled from the spec: `push` appends a sample; on a full buffer it
drops the oldest unconsumed sample and increments the drop counter; a closed
queue accepts nothing (section 4.3). -/
def AudioSampleQueue.push (q : AudioSampleQueue) (x : AudioSample) : AudioSampleQueue :=
  if q.closed then
    q
  else if q.buffer.length < q.capacity then
    { q with buffer := q.buffer ++ [x] }
  else
    { q with buffer := q.buffer.tail ++ [x], dropCount := q.dropCount + 1 }

/-- Push a whole batch of samples in order (producer side). -/
def AudioSampleQueue.pushAll (q : AudioSampleQueue) (xs : List AudioSample) : AudioSampleQueue :=
  xs.foldl AudioSampleQueue.push q

/-- Modelled from the spec: `drain` hands every queued sample, in arrival
order, to the consumer and empties the buffer (section 4.3). -/
def AudioSampleQueue.drain (q : AudioSampleQueue) : List AudioSample × AudioSampleQueue :=
  (q.buffer, { q with buffer := [] })

/-- Modelled from the spec: `close` stops accepting new samples and flushes
the remaining queued samples synchronously (section 4.3). -/
def AudioSampleQueue.close (q : AudioSampleQueue) : List AudioSample × AudioSampleQueue :=
  (q.buffer, { q with buffer := [], closed := true })

/-- Capture-session states (spec section 4.4). -/
inductive SessionState where
  | Idle
  | Starting
  | Capturing
  | Stopping
deriving DecidableEq, Repr

/-- Tagged union over process, window and display targets (spec section 3);
the header exposes one start entry point per variant. -/
inductive CaptureTarget where
  | process (processId : Int)
  | window (windowId : Nat)
  | display (displayId : Nat)
deriving DecidableEq, Repr

/-- Error taxonomy of the start path (spec section 7). -/
inductive CaptureError where
  | configError (e : ConfigError)
  | alreadyCapturing
  | captureStartFailed
deriving DecidableEq, Repr

/-- Enumeration failure: the backend cannot be reached (spec section 7). -/
inductive EnumerationError where
  | backendUnreachable
deriving DecidableEq, Repr

/-- Rectangle in display coordinates, from the header (doubles embedded as
rationals). -/
structure Rect where
  x : ℚ
  y : ℚ
  width : ℚ
  height : ℚ
deriving DecidableEq, Repr

/-- Snapshot row describing one running application, from the header. -/
structure AppInfo where
  processId : Int
  bundleIdentifier : String
  applicationName : String
deriving DecidableEq, Repr

/-- Snapshot row describing one capturable window, from the header. -/
structure WindowInfo where
  windowId : Nat
  frame : Rect
  layer : Int
  onScreen : Bool
  active : Bool
  title : String
  owningProcessId : Int
  owningApplicationName : String
  owningBundleIdentifier : String
deriving DecidableEq, Repr

/-- Snapshot row describing one display, from the header. -/
structure DisplayInfo where
  displayId : Nat
  frame : Rect
  width : Int
  height : Int
  isMainDisplay : Bool
deriving DecidableEq, Repr

/-- Modelled from the spec: the CaptureSession entity of section 4.4 — the
current state, active target, active config, registered callback and the
hand-off queue; the implementation is not in the sources.  Callbacks are
opaque to the core, so a callback is identified by a number.
`backendSessions` counts backend capture sessions currently open (one
`begin` per successful start, one `end` per real stop), so that the
single-active-capture guarantee is a checkable bound rather than a fact of
the enum type. -/
structure CaptureSession where
  state : SessionState
  target : Option CaptureTarget
  config : Option CaptureConfig
  callback : Option Nat
  queue : AudioSampleQueue
  backendSessions : Nat
deriving DecidableEq, Repr

/-- Modelled from the spec: a controller starts with its single session Idle,
nothing registered, queue empty with nothing yet dropped (section 3,
CaptureSession lifecycle). -/
def initSession (cap : Nat) : CaptureSession :=
  { state := .Idle
    target := none
    config := none
    callback := none
    queue := { capacity := cap, buffer := [], dropCount := 0, closed := false }
    backendSessions := 0 }

/-- Modelled from the spec: the start transition of section 4.4.  Rejected
with AlreadyCapturing when not Idle (no state change); otherwise the config
is validated (ConfigError, stays Idle on failure); then the queue is opened
and the callback registered before the backend is told to begin; backend
acknowledgement (the `backendOk` input) completes Idle→Starting→Capturing,
while backend failure surfaces CaptureStartFailed with no partial state
retained. -/
def CaptureSession.startCapture (s : CaptureSession) (t : CaptureTarget)
    (c : CaptureConfig) (cb : Nat) (backendOk : Bool) :
    Except CaptureError Unit × CaptureSession :=
  if s.state = .Idle then
    match validate c with
    | .error e => (.error (.configError e), s)
    | .ok vc =>
      if backendOk then
        (.ok (),
          { state := .Capturing
            target := some t
            config := some vc
            callback := some cb
            queue := { capacity := s.queue.capacity, buffer := [], dropCount := 0, closed := false }
            backendSessions := s.backendSessions + 1 })
      else
        (.error .captureStartFailed, s)
  else
    (.error .alreadyCapturing, s)

/-- Modelled from the spec: the stop transition of section 4.4.  A no-op
from Idle; otherwise the backend session ends, the queue is closed and its
remaining samples are flushed synchronously to the registered callback
before the call returns (section 4.3 close), and the session returns to
Idle with nothing registered.  The first component lists the flushed
deliveries as (callback, sample) pairs. -/
def CaptureSession.stopCapture (s : CaptureSession) :
    List (Nat × AudioSample) × CaptureSession :=
  if s.state = .Idle then
    ([], s)
  else
    (match s.callback with
      | some cb => s.queue.buffer.map (fun x => (cb, x))
      | none => [],
     { state := .Idle
       target := none
       config := none
       callback := none
       queue := { capacity := s.queue.capacity, buffer := [], dropCount := s.queue.dropCount,
                  closed := true }
       backendSessions := s.backendSessions - 1 })

/-- Non-blocking read of the current state: true iff Capturing (spec
section 4.4). -/
def CaptureSession.isCapturing (s : CaptureSession) : Bool :=
  s.state = .Capturing

/-- Observable events driving one controller: a start request (with the
backend acknowledgement it receives), a raw sample delivery from the
platform, a drain of the queue to the callback, and a stop request. -/
inductive Event where
  | start (t : CaptureTarget) (c : CaptureConfig) (cb : Nat) (backendOk : Bool)
  | push (x : AudioSample)
  | drain
  | stop
deriving DecidableEq, Repr

/-- The callback an event would register, if any. -/
def Event.registersCallback : Event → Option Nat
  | .start _ _ cb _ => some cb
  | _ => none

/-- Modelled from the spec: one observable step of the session.  A raw
platform delivery is pushed into the queue only while Capturing (the queue
is opened with the session and closed on stop); a drain hands the queued
samples, in order, to the registered callback; a stop flushes and returns to
Idle.  The second component lists the (callback, sample) deliveries the step
performs. -/
def step (s : CaptureSession) (e : Event) : CaptureSession × List (Nat × AudioSample) :=
  match e with
  | .start t c cb ok => ((s.startCapture t c cb ok).2, [])
  | .push x =>
    if s.state = .Capturing then ({ s with queue := s.queue.push x }, []) else (s, [])
  | .drain =>
    match s.state, s.callback with
    | .Capturing, some cb =>
      ({ s with queue := (s.queue.drain).2 }, (s.queue.drain).1.map (fun x => (cb, x)))
    | _, _ => (s, [])
  | .stop => ((s.stopCapture).2, (s.stopCapture).1)

/-- Run a sequence of events, accumulating every delivery made. -/
def run (s : CaptureSession) : List Event → CaptureSession × List (Nat × AudioSample)
  | [] => (s, [])
  | e :: es =>
    ((run (step s e).1 es).1, (step s e).2 ++ (run (step s e).1 es).2)

/-- The public controller from the header: it owns exactly one session. -/
structure ScreenCaptureKitWrapper where
  session : CaptureSession
deriving DecidableEq, Repr

/-- Header entry point `startCapture(int processId, const CaptureConfig&,
callback)`.  The config parameter is passed by const reference, so the call
cannot write to the caller's config object; the embedding makes that frame
condition explicit by returning, next to the result, the caller's config
variable as it stands after the call. -/
def ScreenCaptureKitWrapper.startCapture (w : ScreenCaptureKitWrapper)
    (processId : Int) (config : CaptureConfig) (cb : Nat) (backendOk : Bool) :
    (Except CaptureError Unit × ScreenCaptureKitWrapper) × CaptureConfig :=
  (((w.session.startCapture (.process processId) config cb backendOk).1,
    { session := (w.session.startCapture (.process processId) config cb backendOk).2 }),
   config)

/-- Header entry point `startCaptureForWindow(uint64_t windowId, const
CaptureConfig&, callback)`; same const-reference frame condition. -/
def ScreenCaptureKitWrapper.startCaptureForWindow (w : ScreenCaptureKitWrapper)
    (windowId : Nat) (config : CaptureConfig) (cb : Nat) (backendOk : Bool) :
    (Except CaptureError Unit × ScreenCaptureKitWrapper) × CaptureConfig :=
  (((w.session.startCapture (.window windowId) config cb backendOk).1,
    { session := (w.session.startCapture (.window windowId) config cb backendOk).2 }),
   config)

/-- Header entry point `startCaptureForDisplay(uint32_t displayId, const
CaptureConfig&, callback)`; same const-reference frame condition. -/
def ScreenCaptureKitWrapper.startCaptureForDisplay (w : ScreenCaptureKitWrapper)
    (displayId : Nat) (config : CaptureConfig) (cb : Nat) (backendOk : Bool) :
    (Except CaptureError Unit × ScreenCaptureKitWrapper) × CaptureConfig :=
  (((w.session.startCapture (.display displayId) config cb backendOk).1,
    { session := (w.session.startCapture (.display displayId) config cb backendOk).2 }),
   config)

/-- Modelled from the spec: `getAvailableApps` wraps the enumeration
backend (section 4.2); the backend snapshot (or its failure) is passed
through unchanged and the capture session is untouched.  The backend answer
is an explicit input, since enumeration is an external collaborator. -/
def ScreenCaptureKitWrapper.getAvailableApps (w : ScreenCaptureKitWrapper)
    (backend : Except EnumerationError (List AppInfo)) :
    Except EnumerationError (List AppInfo) × ScreenCaptureKitWrapper :=
  (backend, w)

/-- Modelled from the spec: `getAvailableWindows` wraps the enumeration
backend (section 4.2); the backend snapshot (or its failure) is passed
through unchanged and the capture session is untouched.  The backend answer
is an explicit input, since enumeration is an external collaborator. -/
def ScreenCaptureKitWrapper.getAvailableWindows (w : ScreenCaptureKitWrapper)
    (backend : Except EnumerationError (List WindowInfo)) :
    Except EnumerationError (List WindowInfo) × ScreenCaptureKitWrapper :=
  (backend, w)

/-- Modelled from the spec: `getAvailableDisplays` wraps the enumeration
backend (section 4.2); the backend snapshot (or its failure) is passed
through unchanged and the capture session is untouched.  The backend answer
is an explicit input, since enumeration is an external collaborator. -/
def ScreenCaptureKitWrapper.getAvailableDisplays (w : ScreenCaptureKitWrapper)
    (backend : Except EnumerationError (List DisplayInfo)) :
    Except EnumerationError (List DisplayInfo) × ScreenCaptureKitWrapper :=
  (backend, w)

/-- Characterisation of a run of pushes into an open queue that never holds
more than its capacity: the buffer ends as the newest `capacity` elements of
the pushed stream appended to the prior contents (drop-oldest), and the drop
counter grows by exactly the number of elements that no longer fit. -/
theorem AudioSampleQueue.pushAll_open (cap : Nat) (hcap : 0 < cap) :
    ∀ (xs buf : List AudioSample) (d : Nat), buf.length ≤ cap →
      AudioSampleQueue.pushAll ⟨cap, buf, d, false⟩ xs =
        ⟨cap, (buf ++ xs).drop (buf.length + xs.length - cap),
          d + (buf.length + xs.length - cap), false⟩ := by
  intro xs
  induction xs with
  | nil =>
    intro buf d h
    have h0 : buf.length - cap = 0 := by omega
    simp [AudioSampleQueue.pushAll, h0]
  | cons x rest ih =>
    intro buf d h
    have hunfold : AudioSampleQueue.pushAll ⟨cap, buf, d, false⟩ (x :: rest)
        = AudioSampleQueue.pushAll (AudioSampleQueue.push ⟨cap, buf, d, false⟩ x) rest := rfl
    by_cases hlt : buf.length < cap
    · have hstep : AudioSampleQueue.push ⟨cap, buf, d, false⟩ x
          = ⟨cap, buf ++ [x], d, false⟩ := by
        simp [AudioSampleQueue.push, hlt]
      have hlapp : (buf ++ [x]).length = buf.length + 1 := by simp
      have hlen : (buf ++ [x]).length ≤ cap := by omega
      rw [hunfold, hstep, ih (buf ++ [x]) d hlen]
      have e1 : (buf ++ [x]) ++ rest = buf ++ x :: rest := by simp
      have e2 : (buf ++ [x]).length + rest.length = buf.length + (x :: rest).length := by
        rw [hlapp]
        simp only [List.length_cons]
        omega
      rw [e1, e2]
    · have hbe : buf.length = cap := Nat.le_antisymm h (Nat.le_of_not_lt hlt)
      obtain ⟨b, bs, rfl⟩ : ∃ b bs, buf = b :: bs := by
        cases buf with
        | nil =>
          exfalso
          simp only [List.length_nil] at hbe
          omega
        | cons b bs => exact ⟨b, bs, rfl⟩
      have hbs : bs.length + 1 = cap := by
        simp only [List.length_cons] at hbe
        exact hbe
      have hstep : AudioSampleQueue.push ⟨cap, b :: bs, d, false⟩ x
          = ⟨cap, bs ++ [x], d + 1, false⟩ := by
        simp [AudioSampleQueue.push, hlt]
        omega
      have hlapp : (bs ++ [x]).length = bs.length + 1 := by simp
      have hlen : (bs ++ [x]).length ≤ cap := by omega
      rw [hunfold, hstep, ih (bs ++ [x]) (d + 1) hlen]
      have e1 : (bs ++ [x]).length + rest.length - cap = rest.length := by
        rw [hlapp]
        omega
      have e2 : (b :: bs).length + (x :: rest).length - cap = rest.length + 1 := by
        simp only [List.length_cons]
        omega
      rw [e1, e2]
      have e3 : (bs ++ [x]) ++ rest = bs ++ x :: rest := by simp
      have e4 : ((b :: bs) ++ x :: rest).drop (rest.length + 1)
          = (bs ++ x :: rest).drop rest.length := by
        rw [List.cons_append, List.drop_succ_cons]
      have e5 : d + 1 + rest.length = d + (rest.length + 1) := by omega
      rw [e3, e4, e5]

/-- Inductive invariant of the controller: never more than one backend
capture session open, and the session is Idle exactly when none is open. -/
def SessionInv (s : CaptureSession) : Prop :=
  s.backendSessions ≤ 1 ∧ (s.state = .Idle ↔ s.backendSessions = 0)

/-- The invariant holds in the initial state. -/
theorem initSession_inv (cap : Nat) : SessionInv (initSession cap) := by
  simp [SessionInv, initSession]

/-- Starting while the session is not Idle is rejected with AlreadyCapturing
and the session value is returned untouched. -/
theorem startCapture_not_idle (s : CaptureSession) (t : CaptureTarget)
    (c : CaptureConfig) (cb : Nat) (ok : Bool) (h : ¬ s.state = .Idle) :
    s.startCapture t c cb ok = (.error .alreadyCapturing, s) := by
  simp [CaptureSession.startCapture, h]

/-- Every observable step preserves the controller invariant. -/
theorem step_inv : ∀ (s : CaptureSession) (e : Event),
    SessionInv s → SessionInv (step s e).1 := by
  rintro ⟨st, tg, cf, cbopt, q, bs⟩ e ⟨h1, h2⟩
  simp only at h1 h2
  cases e with
  | start t c cb ok =>
    by_cases hs : st = SessionState.Idle
    · subst hs
      have hz : bs = 0 := h2.mp rfl
      subst hz
      cases hv : validate c with
      | error err => simp [step, CaptureSession.startCapture, hv, SessionInv]
      | ok vc => cases ok <;> simp [step, CaptureSession.startCapture, hv, SessionInv]
    · have hrej := startCapture_not_idle (CaptureSession.mk st tg cf cbopt q bs) t c cb ok hs
      simp only [step, hrej]
      exact ⟨h1, h2⟩
  | push x =>
    by_cases hs : st = SessionState.Capturing
    · subst hs
      simp only [step, if_pos rfl]
      exact ⟨h1, h2⟩
    · simp only [step, if_neg hs]
      exact ⟨h1, h2⟩
  | drain =>
    cases st <;> cases cbopt <;> exact ⟨h1, h2⟩
  | stop =>
    by_cases hs : st = SessionState.Idle
    · subst hs
      have hz : bs = 0 := h2.mp rfl
      subst hz
      simp [step, CaptureSession.stopCapture, SessionInv]
    · have hbz : ¬ bs = 0 := fun h0 => hs (h2.mpr h0)
      simp only [step, CaptureSession.stopCapture]
      simp [hs, SessionInv]
      omega

/-- Every run from an invariant state ends in an invariant state. -/
theorem run_inv (evs : List Event) :
    ∀ s, SessionInv s → SessionInv (run s evs).1 := by
  induction evs with
  | nil => intro s h; exact h
  | cons e es ih =>
    intro s h
    simp only [run]
    exact ih _ (step_inv s e h)

/-- If the currently registered callback is not `cb` and no event of the run
registers `cb`, then the run makes no delivery to `cb`, and `cb` remains
unregistered. -/
theorem run_no_delivery_to (cb : Nat) (evs : List Event) :
    ∀ s : CaptureSession, s.callback ≠ some cb →
      (∀ e2 ∈ evs, e2.registersCallback ≠ some cb) →
      (run s evs).1.callback ≠ some cb ∧ ∀ x, (cb, x) ∉ (run s evs).2 := by
  induction evs with
  | nil =>
    intro s h1 _
    refine ⟨h1, ?_⟩
    intro x hx
    simp [run] at hx
  | cons e es ih =>
    intro s h1 h2
    have hstep : (step s e).1.callback ≠ some cb ∧ ∀ x, (cb, x) ∉ (step s e).2 := by
      obtain ⟨st, tg, cf, cbopt, q, bs⟩ := s
      cases e with
      | start t c cb2 ok =>
        have hcb2 : ¬ cb2 = cb := by
          have hr := h2 (.start t c cb2 ok) (List.mem_cons_self _ _)
          simpa [Event.registersCallback] using hr
        refine ⟨?_, ?_⟩
        · by_cases hs : st = SessionState.Idle
          · subst hs
            cases hv : validate c with
            | error err => simpa [step, CaptureSession.startCapture, hv] using h1
            | ok vc =>
              cases ok with
              | true => simp [step, CaptureSession.startCapture, hv, hcb2]
              | false => simpa [step, CaptureSession.startCapture, hv] using h1
          · have hrej := startCapture_not_idle
              (CaptureSession.mk st tg cf cbopt q bs) t c cb2 ok hs
            simpa [step, hrej] using h1
        · intro x hx
          simp [step] at hx
      | push x2 =>
        by_cases hs : st = SessionState.Capturing
        · subst hs
          simp only [step, if_pos rfl]
          exact ⟨h1, by intro x hx; simp at hx⟩
        · simp only [step, if_neg hs]
          exact ⟨h1, by intro x hx; simp at hx⟩
      | drain =>
        cases st with
        | Capturing =>
          cases cbopt with
          | none =>
            refine ⟨h1, ?_⟩
            intro x hx
            simp [step] at hx
          | some cb3 =>
            have hcb3 : ¬ cb3 = cb := by simpa using h1
            refine ⟨h1, ?_⟩
            intro x hx
            simp [step, AudioSampleQueue.drain, hcb3] at hx
        | Idle =>
          refine ⟨h1, ?_⟩
          intro x hx
          simp [step] at hx
        | Starting =>
          refine ⟨h1, ?_⟩
          intro x hx
          simp [step] at hx
        | Stopping =>
          refine ⟨h1, ?_⟩
          intro x hx
          simp [step] at hx
      | stop =>
        by_cases hs : st = SessionState.Idle
        · subst hs
          refine ⟨h1, ?_⟩
          intro x hx
          simp [step, CaptureSession.stopCapture] at hx
        · cases cbopt with
          | none =>
            refine ⟨?_, ?_⟩
            · simp [step, CaptureSession.stopCapture, hs]
            · intro x hx
              simp [step, CaptureSession.stopCapture, hs] at hx
          | some cb3 =>
            have hcb3 : ¬ cb3 = cb := by simpa using h1
            refine ⟨?_, ?_⟩
            · simp [step, CaptureSession.stopCapture, hs]
            · intro x hx
              simp [step, CaptureSession.stopCapture, hs, hcb3] at hx
    have h2tail : ∀ e2 ∈ es, e2.registersCallback ≠ some cb :=
      fun e2 he2 => h2 e2 (List.mem_cons_of_mem _ he2)
    have hrest := ih (step s e).1 hstep.1 h2tail
    refine ⟨?_, ?_⟩
    · simpa only [run] using hrest.1
    · intro x hx
      simp only [run, List.mem_append] at hx
      rcases hx with hx | hx
      · exact hstep.2 x hx
      · exact hrest.2 x hx

/-- Claim C1: single-active-capture guarantee.  Along every event run from a
fresh controller, at most one backend capture session is open at any time
(`backendSessions ≤ 1`), and whenever the session is Starting or Capturing,
any further start attempt fails fast with AlreadyCapturing and leaves the
session untouched — it is neither queued nor interleaved. -/
theorem claim_c1_single_active (cap : Nat) (evs : List Event) :
    (run (initSession cap) evs).1.backendSessions ≤ 1
    ∧ ((run (initSession cap) evs).1.state = SessionState.Starting
        ∨ (run (initSession cap) evs).1.state = SessionState.Capturing →
       ∀ (t : CaptureTarget) (c : CaptureConfig) (cb : Nat) (ok : Bool),
         (run (initSession cap) evs).1.startCapture t c cb ok
           = (.error .alreadyCapturing, (run (initSession cap) evs).1)) := by
  have hinv := run_inv evs (initSession cap) (initSession_inv cap)
  refine ⟨hinv.1, ?_⟩
  intro hact t c cb ok
  apply startCapture_not_idle
  rcases hact with h | h <;> simp [h]

/-- Witness for C1: after one successful display start the session is
Capturing, the backend-session bound holds, and a second start is rejected. -/
theorem claim_c1_witness :
    ((run (initSession 4) [Event.start (.display 1) CaptureConfig.default 5 true]).1.state
        = SessionState.Starting
      ∨ (run (initSession 4) [Event.start (.display 1) CaptureConfig.default 5 true]).1.state
        = SessionState.Capturing)
    ∧ (run (initSession 4)
        [Event.start (.display 1) CaptureConfig.default 5 true]).1.backendSessions ≤ 1
    ∧ (run (initSession 4)
        [Event.start (.display 1) CaptureConfig.default 5 true]).1.startCapture
          (.display 2) CaptureConfig.default 6 true
        = (.error .alreadyCapturing,
           (run (initSession 4) [Event.start (.display 1) CaptureConfig.default 5 true]).1) := by
  have hact : (run (initSession 4)
      [Event.start (.display 1) CaptureConfig.default 5 true]).1.state
        = SessionState.Starting
      ∨ (run (initSession 4)
          [Event.start (.display 1) CaptureConfig.default 5 true]).1.state
        = SessionState.Capturing := Or.inr (by decide)
  have h := claim_c1_single_active 4 [Event.start (.display 1) CaptureConfig.default 5 true]
  exact ⟨hact, h.1, h.2 hact (.display 2) CaptureConfig.default 6 true⟩

/-- Claim C2: any start attempt (whatever the target: process, window or
display) while the session is not Idle returns AlreadyCapturing and leaves
the session — in particular the stored target, config and registered
callback — unchanged. -/
theorem claim_c2_already_capturing (s : CaptureSession) (t : CaptureTarget)
    (c : CaptureConfig) (cb : Nat) (ok : Bool) (h : ¬ s.state = SessionState.Idle) :
    s.startCapture t c cb ok = (.error .alreadyCapturing, s)
    ∧ (s.startCapture t c cb ok).2.target = s.target
    ∧ (s.startCapture t c cb ok).2.config = s.config
    ∧ (s.startCapture t c cb ok).2.callback = s.callback := by
  have hrej := startCapture_not_idle s t c cb ok h
  exact ⟨hrej, by rw [hrej], by rw [hrej], by rw [hrej]⟩

/-- Witness for C2 at a concrete Capturing session. -/
theorem claim_c2_witness :
    (¬ (⟨SessionState.Capturing, some (.display 1), some CaptureConfig.default, some 5,
          ⟨8, [], 0, false⟩, 1⟩ : CaptureSession).state = SessionState.Idle)
    ∧ (⟨SessionState.Capturing, some (.display 1), some CaptureConfig.default, some 5,
          ⟨8, [], 0, false⟩, 1⟩ : CaptureSession).startCapture
        (.window 2) CaptureConfig.default 6 true
      = (.error .alreadyCapturing,
         ⟨SessionState.Capturing, some (.display 1), some CaptureConfig.default, some 5,
          ⟨8, [], 0, false⟩, 1⟩) := by
  have hne : ¬ (⟨SessionState.Capturing, some (.display 1), some CaptureConfig.default, some 5,
      ⟨8, [], 0, false⟩, 1⟩ : CaptureSession).state = SessionState.Idle := by decide
  exact ⟨hne, (claim_c2_already_capturing _ (.window 2) CaptureConfig.default 6 true hne).1⟩

/-- Claim C3: once stopCapture on an active session has returned,
isCapturing is false, and the callback that was registered for the stopped
session is never invoked again with any sample along any continuation of
the run in which no later start registers that same callback — including
the samples still buffered at the moment of stop, which are flushed during
the stop call itself, before it returns. -/
theorem claim_c3_stop_silences (s : CaptureSession) (cb : Nat) (evs : List Event)
    (x : AudioSample) (hact : ¬ s.state = SessionState.Idle)
    (hcb : s.callback = some cb)
    (hfresh : ∀ e2 ∈ evs, e2.registersCallback ≠ some cb) :
    ((step s .stop).1).isCapturing = false
    ∧ (cb, x) ∉ (run (step s .stop).1 evs).2 := by
  have hpost : (step s .stop).1.callback = none := by
    obtain ⟨st, tg, cf, cbopt, q, bs⟩ := s
    simp [step, CaptureSession.stopCapture, hact]
  have hidle : (step s .stop).1.state = SessionState.Idle := by
    obtain ⟨st, tg, cf, cbopt, q, bs⟩ := s
    simp [step, CaptureSession.stopCapture, hact]
  refine ⟨?_, ?_⟩
  · simp [CaptureSession.isCapturing, hidle]
  · have hne : (step s .stop).1.callback ≠ some cb := by
      rw [hpost]
      exact fun hc => Option.noConfusion hc
    exact (run_no_delivery_to cb evs (step s .stop).1 hne hfresh).2 x

/-- Witness for C3: a Capturing session with callback 5 and one buffered
sample is stopped; afterwards it is not capturing and a continuation of one
platform push and one drain delivers nothing to callback 5. -/
theorem claim_c3_witness :
    (¬ (⟨SessionState.Capturing, some (.display 1), some CaptureConfig.default, some 5,
          ⟨4, [AudioSample.mk [1] 48000 2 1], 0, false⟩, 1⟩ : CaptureSession).state
        = SessionState.Idle)
    ∧ (⟨SessionState.Capturing, some (.display 1), some CaptureConfig.default, some 5,
          ⟨4, [AudioSample.mk [1] 48000 2 1], 0, false⟩, 1⟩ : CaptureSession).callback = some 5
    ∧ (∀ e2 ∈ [Event.push (AudioSample.mk [2] 48000 2 2), Event.drain],
        e2.registersCallback ≠ some 5)
    ∧ ((step (⟨SessionState.Capturing, some (.display 1), some CaptureConfig.default, some 5,
          ⟨4, [AudioSample.mk [1] 48000 2 1], 0, false⟩, 1⟩ : CaptureSession) .stop).1).isCapturing
        = false
    ∧ (5, AudioSample.mk [2] 48000 2 2)
        ∉ (run (step (⟨SessionState.Capturing, some (.display 1), some CaptureConfig.default,
              some 5, ⟨4, [AudioSample.mk [1] 48000 2 1], 0, false⟩, 1⟩ : CaptureSession) .stop).1
            [Event.push (AudioSample.mk [2] 48000 2 2), Event.drain]).2 := by
  have hact : ¬ (⟨SessionState.Capturing, some (.display 1), some CaptureConfig.default, some 5,
      ⟨4, [AudioSample.mk [1] 48000 2 1], 0, false⟩, 1⟩ : CaptureSession).state
        = SessionState.Idle := by decide
  have hcb : (⟨SessionState.Capturing, some (.display 1), some CaptureConfig.default, some 5,
      ⟨4, [AudioSample.mk [1] 48000 2 1], 0, false⟩, 1⟩ : CaptureSession).callback = some 5 := rfl
  have hfresh : ∀ e2 ∈ [Event.push (AudioSample.mk [2] 48000 2 2), Event.drain],
      e2.registersCallback ≠ some 5 := by decide
  have h := claim_c3_stop_silences
      (⟨SessionState.Capturing, some (.display 1), some CaptureConfig.default, some 5,
        ⟨4, [AudioSample.mk [1] 48000 2 1], 0, false⟩, 1⟩ : CaptureSession) 5
      [Event.push (AudioSample.mk [2] 48000 2 2), Event.drain]
      (AudioSample.mk [2] 48000 2 2) hact hcb hfresh
  exact ⟨hact, hcb, hfresh, h.1, h.2⟩

/-- Claim C4: within one session, a sequence of samples pushed with strictly
increasing timestamps and no overflow (at most `capacity` pushes into an
open, initially empty queue) is handed to the consumer exactly, in push
order — no reordering, no duplication — with non-decreasing timestamps, and
without any drop being counted. -/
theorem claim_c4_in_order_delivery (cap d : Nat) (xs : List AudioSample)
    (hcap : 0 < cap) (hlen : xs.length ≤ cap)
    (hts : List.Chain' (fun a b => a.timestamp < b.timestamp) xs) :
    (AudioSampleQueue.drain (AudioSampleQueue.pushAll ⟨cap, [], d, false⟩ xs)).1 = xs
    ∧ List.Chain' (fun a b => a.timestamp ≤ b.timestamp)
        (AudioSampleQueue.drain (AudioSampleQueue.pushAll ⟨cap, [], d, false⟩ xs)).1
    ∧ (AudioSampleQueue.pushAll ⟨cap, [], d, false⟩ xs).dropCount = d := by
  have heq := AudioSampleQueue.pushAll_open cap hcap xs [] d (by simp)
  have hz : xs.length - cap = 0 := Nat.sub_eq_zero_of_le hlen
  have hdeliv :
      (AudioSampleQueue.drain (AudioSampleQueue.pushAll ⟨cap, [], d, false⟩ xs)).1 = xs := by
    rw [heq]
    simp [AudioSampleQueue.drain, hz]
  refine ⟨hdeliv, ?_, ?_⟩
  · rw [hdeliv]
    exact hts.imp fun a b hab => le_of_lt hab
  · rw [heq]
    simp [hz]

/-- Witness for C4: two samples with increasing timestamps pushed into an
empty queue of capacity 4 come back exactly and in order on drain. -/
theorem claim_c4_witness :
    (0 < 4
      ∧ ([AudioSample.mk [1] 48000 2 1, AudioSample.mk [2] 48000 2 2] : List AudioSample).length
          ≤ 4
      ∧ List.Chain' (fun a b => a.timestamp < b.timestamp)
          [AudioSample.mk [1] 48000 2 1, AudioSample.mk [2] 48000 2 2])
    ∧ (AudioSampleQueue.drain (AudioSampleQueue.pushAll ⟨4, [], 0, false⟩
        [AudioSample.mk [1] 48000 2 1, AudioSample.mk [2] 48000 2 2])).1
      = [AudioSample.mk [1] 48000 2 1, AudioSample.mk [2] 48000 2 2] := by
  have hcap : 0 < 4 := by decide
  have hlen : ([AudioSample.mk [1] 48000 2 1, AudioSample.mk [2] 48000 2 2]
      : List AudioSample).length ≤ 4 := by decide
  have hts : List.Chain' (fun a b => a.timestamp < b.timestamp)
      [AudioSample.mk [1] 48000 2 1, AudioSample.mk [2] 48000 2 2] := by
    rw [List.chain'_cons]
    exact ⟨by norm_num, List.chain'_singleton _⟩
  have h := claim_c4_in_order_delivery 4 0
      [AudioSample.mk [1] 48000 2 1, AudioSample.mk [2] 48000 2 2] hcap hlen hts
  exact ⟨⟨hcap, hlen, hts⟩, h.1⟩

/-- Claim C5: when the producer overflows the fixed-capacity queue, the
oldest unconsumed samples are dropped (the queue keeps exactly the newest
`capacity` pushes), the observable drop counter strictly increases, and the
sequence handed to the consumer is an order-preserving subsequence of the
pushed sequence. -/
theorem claim_c5_overflow_drop_oldest (cap d : Nat) (xs : List AudioSample)
    (hcap : 0 < cap) (hover : cap < xs.length) :
    d < (AudioSampleQueue.pushAll ⟨cap, [], d, false⟩ xs).dropCount
    ∧ (AudioSampleQueue.drain (AudioSampleQueue.pushAll ⟨cap, [], d, false⟩ xs)).1
        = xs.drop (xs.length - cap)
    ∧ List.Sublist
        (AudioSampleQueue.drain (AudioSampleQueue.pushAll ⟨cap, [], d, false⟩ xs)).1 xs := by
  have heq := AudioSampleQueue.pushAll_open cap hcap xs [] d (by simp)
  have hdeliv :
      (AudioSampleQueue.drain (AudioSampleQueue.pushAll ⟨cap, [], d, false⟩ xs)).1
        = xs.drop (xs.length - cap) := by
    rw [heq]
    simp [AudioSampleQueue.drain]
  refine ⟨?_, hdeliv, ?_⟩
  · rw [heq]
    simp
    omega
  · rw [hdeliv]
    exact List.drop_sublist _ _

/-- Witness for C5: three samples pushed into a queue of capacity 1 leave
two drops counted and only the newest sample delivered, a subsequence of
the pushed sequence. -/
theorem claim_c5_witness :
    (0 < 1
      ∧ 1 < ([AudioSample.mk [1] 48000 2 1, AudioSample.mk [2] 48000 2 2,
          AudioSample.mk [3] 48000 2 3] : List AudioSample).length)
    ∧ 0 < (AudioSampleQueue.pushAll ⟨1, [], 0, false⟩
        [AudioSample.mk [1] 48000 2 1, AudioSample.mk [2] 48000 2 2,
          AudioSample.mk [3] 48000 2 3]).dropCount
    ∧ List.Sublist
        (AudioSampleQueue.drain (AudioSampleQueue.pushAll ⟨1, [], 0, false⟩
          [AudioSample.mk [1] 48000 2 1, AudioSample.mk [2] 48000 2 2,
            AudioSample.mk [3] 48000 2 3])).1
        [AudioSample.mk [1] 48000 2 1, AudioSample.mk [2] 48000 2 2,
          AudioSample.mk [3] 48000 2 3] := by
  have hcap : 0 < 1 := by decide
  have hover : 1 < ([AudioSample.mk [1] 48000 2 1, AudioSample.mk [2] 48000 2 2,
      AudioSample.mk [3] 48000 2 3] : List AudioSample).length := by decide
  have h := claim_c5_overflow_drop_oldest 1 0
      [AudioSample.mk [1] 48000 2 1, AudioSample.mk [2] 48000 2 2,
        AudioSample.mk [3] 48000 2 3] hcap hover
  exact ⟨⟨hcap, hover⟩, h.1, h.2.2⟩

/-- Claim C6: a default-constructed CaptureConfig equals
{sampleRate 48000, channels 2, bufferSize 0, excludeCursor true}, and
validating this default config with no overrides succeeds and returns a
config equal to it. -/
theorem claim_c6_default_config :
    CaptureConfig.default
      = { sampleRate := 48000, channels := 2, bufferSize := 0, excludeCursor := true }
    ∧ validate CaptureConfig.default = .ok CaptureConfig.default :=
  ⟨rfl, rfl⟩

/-- Claim C7: validation is idempotent on successful results: whenever
validate c succeeds with vc, validating vc succeeds and returns vc again. -/
theorem claim_c7_validate_idempotent (c vc : CaptureConfig)
    (h : validate c = .ok vc) : validate vc = .ok vc := by
  by_cases h1 : c.sampleRate < 8000 ∨ 192000 < c.sampleRate
  · simp [validate, h1] at h
  · by_cases h2 : c.channels = 1 ∨ c.channels = 2
    · by_cases h3 : c.bufferSize < 0
      · simp [validate, h1, h2, h3] at h
      · have hc : c = vc := by simpa [validate, h1, h2, h3] using h
        subst hc
        simp [validate, h1, h2, h3]
    · simp [validate, h1, h2] at h

/-- Witness for C7 at a concrete non-default valid configuration. -/
theorem claim_c7_witness :
    validate ⟨44100, 1, 256, false⟩ = .ok ⟨44100, 1, 256, false⟩
    ∧ validate ⟨44100, 1, 256, false⟩ = .ok ⟨44100, 1, 256, false⟩ :=
  ⟨rfl, claim_c7_validate_idempotent ⟨44100, 1, 256, false⟩ ⟨44100, 1, 256, false⟩ rfl⟩

/-- Claim C8: every config whose sample rate lies outside the supported set
(for example 0, -1 or 999999) is rejected by validate with
InvalidSampleRate — never a successfully defaulted config — and a start
with such a config from an Idle session returns that ConfigError and
leaves the session Idle and unchanged. -/
theorem claim_c8_invalid_sample_rate (c : CaptureConfig)
    (h : c.sampleRate < 8000 ∨ 192000 < c.sampleRate) :
    validate c = .error .InvalidSampleRate
    ∧ ∀ (s : CaptureSession) (t : CaptureTarget) (cb : Nat) (ok : Bool),
        s.state = SessionState.Idle →
          s.startCapture t c cb ok
            = (.error (.configError .InvalidSampleRate), s) := by
  refine ⟨by simp [validate, h], ?_⟩
  intro s t cb ok hs
  simp [CaptureSession.startCapture, hs, validate, h]

/-- Witness for C8 at sample rate 0 on a fresh session. -/
theorem claim_c8_witness :
    ((⟨0, 2, 0, true⟩ : CaptureConfig).sampleRate < 8000
      ∨ 192000 < (⟨0, 2, 0, true⟩ : CaptureConfig).sampleRate)
    ∧ validate ⟨0, 2, 0, true⟩ = .error .InvalidSampleRate
    ∧ (initSession 8).startCapture (.display 1) ⟨0, 2, 0, true⟩ 7 true
        = (.error (.configError .InvalidSampleRate), initSession 8) := by
  have hyp : (⟨0, 2, 0, true⟩ : CaptureConfig).sampleRate < 8000
      ∨ 192000 < (⟨0, 2, 0, true⟩ : CaptureConfig).sampleRate := by
    left
    decide
  have h := claim_c8_invalid_sample_rate ⟨0, 2, 0, true⟩ hyp
  exact ⟨hyp, h.1, h.2 (initSession 8) (.display 1) 7 true rfl⟩

/-- Claim C9: when the enumeration backend reports zero windows the window
query returns an empty sequence, not an error; and when the backend cannot
be reached, each of the three enumeration queries — applications, windows,
displays — fails with the EnumerationError while the capture session is
unaffected by any query, whatever the backend answered. -/
theorem claim_c9_enumeration (w : ScreenCaptureKitWrapper) (e : EnumerationError) :
    (w.getAvailableWindows (.ok [])).1 = .ok ([] : List WindowInfo)
    ∧ (w.getAvailableApps (.error e)).1 = .error e
    ∧ (w.getAvailableWindows (.error e)).1 = .error e
    ∧ (w.getAvailableDisplays (.error e)).1 = .error e
    ∧ (∀ backend, (w.getAvailableApps backend).2.session = w.session)
    ∧ (∀ backend, (w.getAvailableWindows backend).2.session = w.session)
    ∧ (∀ backend, (w.getAvailableDisplays backend).2.session = w.session) :=
  ⟨rfl, rfl, rfl, rfl, fun _ => rfl, fun _ => rfl, fun _ => rfl⟩

/-- Claim C10: all three start entry points take the config by const
reference, so the caller's config object is identical after the call,
whether the start succeeds or fails; in the embedding the caller-side
config returned by each entry point equals the config passed in. -/
theorem claim_c10_config_not_mutated (w : ScreenCaptureKitWrapper) (pid : Int)
    (wid did cb : Nat) (c : CaptureConfig) (ok : Bool) :
    (w.startCapture pid c cb ok).2 = c
    ∧ (w.startCaptureForWindow wid c cb ok).2 = c
    ∧ (w.startCaptureForDisplay did c cb ok).2 = c :=
  ⟨rfl, rfl, rfl⟩
